import Mathlib

/-!
Verification of the streaming orchestration core of the repository
(`src/orchestrator/main.py` and the request-handling entry `src/app.py`).

The embedding is shallow: the producer's scripted dialogue engine
(`Orchestrator._reasoning_engine`), the per-run queue protocol
(`Orchestrator.stream_bioinformatics_task`), and the Flask entry point
(`run_task`) are translated into executable Lean functions over an explicit
orchestrator state.  Events are modelled as a tagged union mirroring the
JSON payloads the Python code enqueues (`json.dumps` serialization is a
bijection on these payloads and is not re-modelled); the queue's `None`
sentinel is modelled as `Option.none`.  The producer's wall-clock log
timestamp is an opaque parameter `ts`, and `time.sleep` pacing is modelled
by the rational-valued `logDelay` (Python floats idealized as rationals).
An exception inside the engine is modelled by the pair of the number of
events emitted before the raise and the pair (str(e), traceback text).
-/

namespace BioOrch

/-- The event taxonomy: the JSON objects put on the queue by
`_update_status`, `_log`, `_send_chat_message`, `_send_report`, and the
final close payload in `run_simulation_thread`. -/
inductive Event where
  | status (stage : String) (stat : String) (message : String)
  | log (content : String)
  | chat (content : String)
  | report (content : String)
  | close (message : String)
deriving DecidableEq

/-- One execution step dict appended to `execution_steps` in
`_reasoning_engine`. -/
structure Step where
  action : String
  justification : String
  success_metric : String
  details : String
deriving DecidableEq

/-- One entry of `self.conversation_history`:
`{'agent': ..., 'message': ..., 'entities': ...}` where the only entity the
code extracts is `'dna_sequence'`. -/
structure HistEntry where
  agent : String
  message : String
  dna : Option String
deriving DecidableEq

/-- The fields of `self.last_prompt_details` set in `_reasoning_engine`. -/
structure PromptDetails where
  centralTopic : String
  impliedDetail : String
  domain : String
  specialistRole : String
  dnaEntity : Option String
deriving DecidableEq

/-- The orchestrator's mutable per-object state relevant to the streaming
core: `self.conversation_history` and `self.last_prompt_details`. -/
structure OrchState where
  history : List HistEntry
  lastPromptDetails : Option PromptDetails
deriving DecidableEq

/-- The state of a freshly constructed `Orchestrator`
(`self.conversation_history = []`, `self.last_prompt_details = {}`). -/
def initState : OrchState := ⟨[], none⟩

/-- The single-quote character (written via `Char.ofNat` so string literals
below can interpolate it as `\x27`). -/
def squote : Char := Char.ofNat 39

/-- The backslash character. -/
def bslash : Char := Char.ofNat 92

/-- Boolean list-prefix test, used to embed Python substring primitives. -/
def isPrefixB : List Char → List Char → Bool
  | [], _ => true
  | _ :: _, [] => false
  | a :: as, b :: bs => a == b && isPrefixB as bs

/-- Boolean list-infix test (does `pat` occur somewhere in the list?). -/
def isInfixB (pat : List Char) : List Char → Bool
  | [] => isPrefixB pat []
  | c :: cs => isPrefixB pat (c :: cs) || isInfixB pat cs

/-- Python's `pat in s` substring test. -/
def containsStr (s pat : String) : Bool := isInfixB pat.toList s.toList

/-- Python's `str.lower()` (character-wise lower-casing; the keyword
phrases matched by the code are ASCII). -/
def strToLower (s : String) : String := String.mk (s.toList.map Char.toLower)

/-- Index of the first occurrence of `pat` in a list, scanning left to
right, or `none`: the semantics of Python's `str.find` (up to the `-1`
encoding, added in `pyFind`). -/
def firstIdx (pat : List Char) : List Char → Option Nat
  | [] => if isPrefixB pat [] then some 0 else none
  | c :: cs => if isPrefixB pat (c :: cs) then some 0 else (firstIdx pat cs).map (· + 1)

/-- Python's `s.find(pat)`: first index of `pat` in `s`, or `-1`. -/
def pyFind (s pat : String) : Int :=
  match firstIdx pat.toList s.toList with
  | some n => (n : Int)
  | none => -1

/-- Does `pat` occur in `s` starting at (character) index `j`? -/
def occursAtB (s pat : String) (j : Nat) : Bool :=
  isPrefixB pat.toList (s.toList.drop j)

/-- A character matched by the `[ATGC]` class with `re.IGNORECASE`. -/
def isDnaChar (c : Char) : Bool :=
  c == 'A' || c == 'T' || c == 'G' || c == 'C' ||
  c == 'a' || c == 't' || c == 'g' || c == 'c'

/-- Maximal leading run of DNA characters. -/
def dnaRun : List Char → List Char
  | [] => []
  | c :: cs => if isDnaChar c then c :: dnaRun cs else []

/-- `re.search(r'([ATGC]{10,})', ., re.IGNORECASE)`: the leftmost maximal
run of `[ATGCatgc]` characters of length at least 10 (greedy `{10,}` takes
the whole run at the first position where ten or more such characters
follow). -/
def findDnaToken : List Char → Option (List Char)
  | [] => none
  | c :: cs =>
    if 10 ≤ (dnaRun (c :: cs)).length then some (dnaRun (c :: cs))
    else findDnaToken cs

/-- `Orchestrator._extract_entities`: the `'dna_sequence'` entity (the
matched token, upper-cased), when present. -/
def extractEntities (message : String) : Option String :=
  (findDnaToken message.toList).map fun r => String.mk (r.map Char.toUpper)

/-- Python `seq[:10]`. -/
def firstTen (s : String) : String := String.mk (s.toList.take 10)

/-- The `_log` helper's queue payload:
`f"{timestamp} **{agent}:** {message}"` as a `log` event.  `ts` is the
opaque wall-clock timestamp string. -/
def logEvent (ts agent message : String) : Event :=
  Event.log (ts ++ " **" ++ agent ++ ":** " ++ message)

/-- The conversation-history entry `_log` appends. -/
def histEntryOf (agent message : String) : HistEntry :=
  ⟨agent, message, extractEntities message⟩

/-- The pacing sleep executed by `_log` after emitting a `log` event:
`time.sleep(1.6 + (len(message) / 100.0) * 0.7)` (seconds, floats
idealized as rationals). -/
def logDelay (message : String) : ℚ :=
  16/10 + ((message.length : ℚ) / 100) * (7/10)

/-- The topic-classification chain of `_reasoning_engine`
(lines 104-140): the `central_topic` / `implied_detail` / `domain` /
`specialist_role` assignment, first match wins. -/
def classify (prompt : String) (isFollowUp : Bool) : PromptDetails :=
  let pl := strToLower prompt
  let ents := extractEntities prompt
  if containsStr pl "pcr failing" then
    ⟨"PCR troubleshooting", "technical/protocol-specific", "molecular biology",
     "PCR Troubleshooting Specialist", ents⟩
  else if ents.isSome then
    ⟨"DNA sequence analysis", "structural/functional characterization",
     "bioinformatics", "Sequence Analysis Expert", ents⟩
  else if containsStr pl "protein folding" then
    ⟨"protein folding mechanisms", "conceptual/biophysical", "structural biology",
     "Protein Folding Expert", ents⟩
  else if containsStr pl "nitrogen fixation" then
    ⟨"biological nitrogen fixation", "conceptual/mechanistic",
     "plant physiology/microbiology", "Nitrogen Cycle Biologist", ents⟩
  else if containsStr pl "coding element" && isFollowUp && ents.isSome then
    ⟨"coding element properties of " ++ ents.getD "", "functional characterization",
     "molecular biology/genetics", "Geneticist", ents⟩
  else
    ⟨prompt, "general conceptual", "general biology",
     "General Biological Scientist", ents⟩

/-! Scripted dialogue content of each execution branch
(`_reasoning_engine` lines 169-199).  Each branch contributes an ordered
list of `_log` calls as (agent, message) pairs and an ordered list of
execution-step dicts. -/

/-- First `_log` of the PCR-troubleshooting branch. -/
def pcrLog1 : String :=
  "For PCR troubleshooting, my first thought is to verify the master mix and thermocycler. This rules out general issues before we dive into primer specifics."

/-- Second `_log` of the PCR-troubleshooting branch. -/
def pcrLog2 : String :=
  "And if that works, then we need to consider the template and primers. For a short template, primer-dimer formation is a common culprit."

/-- First step of the PCR-troubleshooting branch. -/
def pcrStep1 : Step :=
  { action := "Verify PCR master mix and thermocycler functionality",
    justification := "Before troubleshooting primer/template issues, it\x27s crucial to rule out general PCR component or equipment failure.",
    success_metric := "Successful amplification of a known positive control template.",
    details := "Run a PCR with a well-characterized positive control template and primers." }

/-- Second step of the PCR-troubleshooting branch. -/
def pcrStep2 : Step :=
  { action := "Redesign primers for short template",
    justification := "For a 17-nt template, standard 18-22 nt primers are likely too long, leading to primer-dimer formation or poor annealing.",
    success_metric := "New primers (e.g., 15 nt) designed with optimal Tm and minimal self-complementarity.",
    details := "Design primers of ~15 nt, ensuring Tm is around 50-55°C. Use an oligo analysis tool to check for secondary structures." }

/-- First `_log` of the DNA-sequence-analysis branch. -/
def seqLog1 (sequence : String) : String :=
  "For the " ++ toString sequence.length ++ "-nt DNA sequence, the first step is always characterization. I\x27ll calculate the precise GC content."

/-- Second `_log` of the DNA-sequence-analysis branch. -/
def seqLog2 : String :=
  "And while doing that, let\x27s also scan for functional motifs. An ATG start codon or restriction sites would be highly informative for this specific sequence."

/-- Third `_log` of the DNA-sequence-analysis branch. -/
def seqLog3 (sequence : String) : String :=
  "Given the " ++ toString sequence.length ++ "-nt length, a standard BLAST search will be too noisy. We need to use `blastn-short`."

/-- The GC-content step of the DNA-sequence-analysis branch: note that its
`details` field is an instruction string interpolating the extracted token
and its length; no GC percentage is computed anywhere in the branch. -/
def seqStep1 (sequence : String) : Step :=
  { action := "Calculate precise GC content",
    justification := "GC content impacts DNA stability and can provide clues about the sequence\x27s origin (e.g., high GC for some bacteria). For the " ++ toString sequence.length ++ "-nt sequence, this is a fundamental characterization step.",
    success_metric := "Accurate percentage of G and C bases in the sequence.",
    details := "Count G and C bases in " ++ sequence ++ " and divide by " ++ toString sequence.length ++ "." }

/-- The ORF-scan step of the DNA-sequence-analysis branch. -/
def seqStep2 (sequence : String) : Step :=
  { action := "Perform six-frame translation and ORF scan",
    justification := "To assess potential coding regions, all six reading frames must be examined. The " ++ toString sequence.length ++ "-nt length suggests a partial ORF if coding.",
    success_metric := "Identification of any Open Reading Frames (ORFs) and their characteristics (start/stop codons, length).",
    details := "Use a bioinformatics tool or script to translate the sequence in all six frames. Note presence of ATG start codons." }

/-- The BLAST step of the DNA-sequence-analysis branch. -/
def seqStep3 (sequence : String) : Step :=
  { action := "Execute specialized BLAST search",
    justification := "For a short " ++ toString sequence.length ++ "-nt sequence, a standard BLAST search is prone to high noise. A specialized search is needed to find meaningful homologs.",
    success_metric := "Identification of homologous sequences with high confidence (e.g., bitscore > 40, e-value < 1e-3) using appropriate parameters.",
    details := "Run `blastn-short` against the NCBI nt database. Set `word_size=7` and adjust e-value/bitscore thresholds." }

/-- First `_log` of the coding-element branch. -/
def codingLog1 (sequence : String) : String :=
  "For the " ++ toString sequence.length ++ "-nt sequence, we need to confirm the ATG context. Is it a true start codon or just a random ATG?"

/-- Second `_log` of the coding-element branch. -/
def codingLog2 (sequence : String) : String :=
  "And given its " ++ toString sequence.length ++ "-nt length, it\x27s likely a partial coding element. We should search for the full gene."

/-- The ATG-context step of the coding-element branch: its `details` field
interpolates `sequence.find("ATG") + 1`. -/
def codingStep1 (sequence : String) : Step :=
  { action := "Confirm ATG start codon context",
    justification := "While the " ++ toString sequence.length ++ "-nt sequence has an ATG, its position and surrounding nucleotides need to be checked for a strong Kozak consensus (in eukaryotes) or Shine-Dalgarno sequence (in prokaryotes) to confirm true coding potential.",
    success_metric := "Identification of ribosomal binding sites or consensus sequences adjacent to the ATG.",
    details := "Analyze the " ++ toString sequence.length ++ "-nt sequence around the ATG at position " ++ toString (pyFind sequence "ATG" + 1) ++ " for known ribosomal binding motifs." }

/-- The homolog-search step of the coding-element branch (its
`success_metric` is not an f-string in the source, so the literal text
`{seq_len}` appears in it). -/
def codingStep2 (sequence : String) : Step :=
  { action := "Search for homologous full-length genes",
    justification := "Given the " ++ toString sequence.length ++ "-nt sequence is likely a partial coding element, searching for longer homologs can reveal the full gene it belongs to.",
    success_metric := "Identification of a larger gene containing the \x7bseq_len\x7d-nt sequence with high sequence identity.",
    details := "Use BLAST (standard blastn) with the " ++ toString sequence.length ++ "-nt sequence as query against genomic or mRNA databases." }

/-- First `_log` of the nitrogen-fixation branch. -/
def nitroLog1 : String :=
  "To understand nitrogen fixation, we should first identify the key organisms involved. Not all prokaryotes can do it."

/-- Second `_log` of the nitrogen-fixation branch. -/
def nitroLog2 : String :=
  "And then, we must understand the central enzyme: nitrogenase. Its oxygen sensitivity is a critical aspect."

/-- First step of the nitrogen-fixation branch. -/
def nitroStep1 : Step :=
  { action := "Identify key nitrogen-fixing organisms",
    justification := "Nitrogen fixation is performed by specific prokaryotes. Identifying them is crucial for understanding the process.",
    success_metric := "List of prominent free-living and symbiotic nitrogen-fixing bacteria/archaea.",
    details := "Research common genera like *Rhizobium*, *Azotobacter*, *Frankia*, and their associated plant hosts." }

/-- Second step of the nitrogen-fixation branch. -/
def nitroStep2 : Step :=
  { action := "Describe the nitrogenase enzyme complex",
    justification := "Nitrogenase is the central enzyme for nitrogen fixation. Understanding its structure and function is key.",
    success_metric := "Explanation of nitrogenase components (Fe-protein, MoFe-protein) and its oxygen sensitivity.",
    details := "Detail the two main components and how oxygen exclusion is achieved (e.g., leghemoglobin in legumes)." }

/-- First `_log` of the fallback (generic deconstruction) branch. -/
def fallbackLog1 (centralTopic : String) : String :=
  "For a broad query like " ++ centralTopic ++ ", we need to break it down into actionable sub-questions."

/-- Second `_log` of the fallback branch. -/
def fallbackLog2 : String :=
  "And we need to know where to find the information. Identifying relevant databases is crucial."

/-- First step of the fallback branch. -/
def fallbackStep1 (centralTopic : String) : Step :=
  { action := "Deconstruct \x27" ++ centralTopic ++ "\x27 into sub-questions",
    justification := "For broad queries, breaking them into smaller, actionable questions allows for systematic analysis.",
    success_metric := "A list of 2-3 specific, answerable sub-questions related to the query.",
    details := "Identify key terms and concepts in the query and formulate questions around them." }

/-- Second step of the fallback branch. -/
def fallbackStep2 (centralTopic : String) : Step :=
  { action := "Identify relevant biological databases or resources for \x27" ++ centralTopic ++ "\x27",
    justification := "Knowing where to find information is the first step in any biological inquiry.",
    success_metric := "A list of 2-3 appropriate databases, tools, or literature sources.",
    details := "Suggest resources like NCBI, UniProt, PDB, specific review articles, or textbooks." }

/-- The execution-step dispatch of `_reasoning_engine` (lines 168-199),
keyed on `central_topic` exactly as in the source: returns the ordered
(agent, message) pairs passed to `_log` and the ordered `execution_steps`
list. -/
def dialogueBranch (pd : PromptDetails) : List (String × String) × List Step :=
  if pd.centralTopic = "PCR troubleshooting" then
    ([(pd.specialistRole, pcrLog1), ("Scientific Critic", pcrLog2)],
     [pcrStep1, pcrStep2])
  else if pd.centralTopic = "DNA sequence analysis" then
    let sequence := pd.dnaEntity.getD ""
    ([(pd.specialistRole, seqLog1 sequence), ("Scientific Critic", seqLog2),
      (pd.specialistRole, seqLog3 sequence)],
     [seqStep1 sequence, seqStep2 sequence, seqStep3 sequence])
  else if pd.centralTopic = "coding element properties of " ++ pd.dnaEntity.getD "" then
    let sequence := pd.dnaEntity.getD ""
    ([(pd.specialistRole, codingLog1 sequence), ("Scientific Critic", codingLog2 sequence)],
     [codingStep1 sequence, codingStep2 sequence])
  else if pd.centralTopic = "biological nitrogen fixation" then
    ([(pd.specialistRole, nitroLog1), ("Scientific Critic", nitroLog2)],
     [nitroStep1, nitroStep2])
  else
    ([(pd.specialistRole, fallbackLog1 pd.centralTopic), ("Scientific Critic", fallbackLog2)],
     [fallbackStep1 pd.centralTopic, fallbackStep2 pd.centralTopic])

/-! Assembly of one engine run (`_reasoning_engine`) and of the
producer/consumer stream (`stream_bioinformatics_task`). -/

/-- The most recent `'dna_sequence'` entity in the conversation history
(the `for entry in reversed(self.conversation_history)` scans). -/
def lastDna (h : List HistEntry) : Option String :=
  (h.reverse.find? fun en => en.dna.isSome).bind fun en => en.dna

/-- `a1_main_entity_str`: `"the DNA sequence '{seq[:10]}...'"` when the
history holds a DNA entity, else the empty string. -/
def a1EntityStr (h : List HistEntry) : String :=
  match lastDna h with
  | some seq => "the DNA sequence \x27" ++ firstTen seq ++ "...\x27"
  | none => ""

/-- The follow-up contextualizing `_log` message (line 102). -/
def ctxLogMsg (p : String) (h : List HistEntry) : String :=
  "Contextualizing follow-up query: \x27" ++ p ++ "\x27. Connecting to previous analysis of " ++ a1EntityStr h ++ "."

/-- Events of the context phase (lines 91-102): fresh runs emit the
Deconstruction status; follow-up runs emit the Contextualizing status and
the contextualizing log line. -/
def ctxEvents (ts : String) (st : OrchState) (p : String) : List Event :=
  if st.history.isEmpty then
    [Event.status "Deconstruction" "processing" "Agents are deconstructing the query..."]
  else
    [Event.status "Contextualizing" "processing" "Agents are contextualizing the follow-up query...",
     logEvent ts "PI Agent" (ctxLogMsg p st.history)]

/-- Conversation history after the context phase: reset to `[]` on a fresh
run (a no-op, the history is already empty then), extended with the
contextualizing log entry on a follow-up run. -/
def ctxHistory (st : OrchState) (p : String) : List HistEntry :=
  if st.history.isEmpty then []
  else st.history ++ [histEntryOf "PI Agent" (ctxLogMsg p st.history)]

/-- The classification of the current prompt as performed inside one run:
`is_follow_up` is `bool(self.conversation_history)` at entry. -/
def classifyOf (st : OrchState) (p : String) : PromptDetails :=
  classify p (!st.history.isEmpty)

/-- `initial_chat_message_prefix` (lines 150-162); on a follow-up run the
history searched already includes the contextualizing log entry. -/
def chatPfx (st : OrchState) (p : String) : String :=
  if st.history.isEmpty then
    "For your query about \x27" ++ p ++ "\x27, "
  else
    match lastDna (ctxHistory st p) with
    | some seq =>
        "You asked earlier about analyzing the DNA sequence \x27" ++ firstTen seq ++ "...\x27, and now want to know about \x27" ++ p ++ "\x27. Let\x27s connect this to what we already know about the sequence. "
    | none => "Regarding your question about \x27" ++ p ++ "\x27, "

/-- The deconstruction `_log` message (line 164). -/
def deconstructMsg (p : String) (pd : PromptDetails) : String :=
  "Deconstructing query: \x27" ++ p ++ "\x27. Central topic: " ++ pd.centralTopic ++ ". Implied detail: " ++ pd.impliedDetail ++ ". Domain: " ++ pd.domain ++ ". Activating " ++ pd.specialistRole ++ "."

/-- The body of the initial chat message (line 165, after the prefix). -/
def mainChatMsg (pd : PromptDetails) : String :=
  "I\x27d say the central topic is: " ++ pd.centralTopic ++ ". The implied level of detail seems to be " ++ pd.impliedDetail ++ ", and it falls within the domain of " ++ pd.domain ++ ". I\x27m activating our " ++ pd.specialistRole ++ "."

/-- `prompt.replace("'", "\\'")` (line 201). -/
def escapeSq (s : String) : String :=
  String.mk (s.toList.flatMap fun c => if c = squote then [bslash, squote] else [c])

/-- The numbered `"{i+1}. {action}\n"` lines of the final chat response. -/
def numberedActions (steps : List Step) : String :=
  String.join (steps.enum.map fun is => toString (is.1 + 1) ++ ". " ++ is.2.action ++ "\n")

/-- `final_chat_response` (lines 203-209). -/
def finalChatResponse (p : String) (pd : PromptDetails) (steps : List Step) : String :=
  "Analysis of \x27" ++ escapeSq p ++ "\x27:\n\n" ++
  "• **Topic:** " ++ pd.centralTopic ++ "\n" ++
  "• **Specialist:** " ++ pd.specialistRole ++ "\n\n" ++
  "**Key Steps:**\n" ++ numberedActions steps

/-- One `### {i+1}. ...` section of `results_content` (lines 220-224);
the `Details` line is emitted only when the step's `details` value is
truthy (a non-empty string). -/
def stepSection (is : Nat × Step) : String :=
  "\n### " ++ toString (is.1 + 1) ++ ". " ++ is.2.action ++ "\n" ++
  "**Justification:** " ++ is.2.justification ++ "\n" ++
  "**Success Metric:** " ++ is.2.success_metric ++ "\n" ++
  (if is.2.details = "" then "" else "**Details:** " ++ is.2.details ++ "\n")

/-- `results_content` (lines 212-224). -/
def resultsContent (p : String) (pd : PromptDetails) (steps : List Step) : String :=
  "# Analysis Report for: \x27" ++ escapeSq p ++ "\x27\n\n" ++
  "**Central Topic:** " ++ pd.centralTopic ++ "\n" ++
  "**Implied Detail:** " ++ pd.impliedDetail ++ "\n" ++
  "**Domain:** " ++ pd.domain ++ "\n" ++
  "**Specialist Activated:** " ++ pd.specialistRole ++ "\n\n" ++
  "## Proposed Execution Steps\n" ++
  String.join (steps.enum.map stepSection)

/-- All events of `_reasoning_engine` before the final completion trio:
context phase, deconstruction log, initial chat, step-generation status,
and the branch's dialogue logs. -/
def engineFront (ts : String) (st : OrchState) (p : String) : List Event :=
  ctxEvents ts st p ++
  [logEvent ts "PI Agent" (deconstructMsg p (classifyOf st p)),
   Event.chat (chatPfx st p ++ mainChatMsg (classifyOf st p)),
   Event.status "Generating Execution Steps" "processing" "Agents are defining actionable steps..."] ++
  ((dialogueBranch (classifyOf st p)).1.map fun am => logEvent ts am.1 am.2)

/-- The full ordered event sequence one successful `_reasoning_engine`
call emits: the front, then the completed status, the final chat message,
and the report (lines 226-228, in that order). -/
def engineEvents (ts : String) (st : OrchState) (p : String) : List Event :=
  engineFront ts st p ++
  [Event.status "Dialogue Complete" "completed" "Initial analysis complete. Awaiting further input.",
   Event.chat (finalChatResponse p (classifyOf st p) (dialogueBranch (classifyOf st p)).2),
   Event.report (resultsContent p (classifyOf st p) (dialogueBranch (classifyOf st p)).2)]

/-- `self.conversation_history` after a successful engine run: the context
phase's history, the deconstruction log entry, then the branch log
entries, in emission order. -/
def engineFinalHistory (st : OrchState) (p : String) : List HistEntry :=
  ctxHistory st p ++
  [histEntryOf "PI Agent" (deconstructMsg p (classifyOf st p))] ++
  ((dialogueBranch (classifyOf st p)).1.map fun am => histEntryOf am.1 am.2)

/-- The orchestrator state after a successful engine run
(`self.last_prompt_details` was assigned at line 142). -/
def engineFinalState (st : OrchState) (p : String) : OrchState :=
  ⟨engineFinalHistory st p, some (classifyOf st p)⟩

/-- The final close payload put in the `finally` block
(`{"type": "close", "message": "Stream finished"}`). -/
def closeEv : Event := Event.close "Stream finished"

/-- A Python exception as observed by the `except` handler: `str(e)` and
`traceback.format_exc()`. -/
structure PyExn where
  msg : String
  tb : String
deriving DecidableEq

/-- The handler's `error_message`
(`f"An error occurred during the simulation: {e}\n{tb_str}"`). -/
def errorMessage (e : PyExn) : String :=
  "An error occurred during the simulation: " ++ e.msg ++ "\n" ++ e.tb

/-- The real events `run_simulation_thread` enqueues.  A failure is
modelled by `some (k, e)`: the engine raised after emitting `k` of its
events (the emitted events form a prefix of the deterministic script), and
the handler then emits the failure log and the error status; the `finally`
block appends the close event on both paths. -/
def producerEvents (ts : String) (st : OrchState) (p : String) :
    Option (Nat × PyExn) → List Event
  | none => engineEvents ts st p ++ [closeEv]
  | some (k, e) =>
      (engineEvents ts st p).take k ++
      [logEvent ts "Orchestrator" (errorMessage e),
       Event.status "Error" "error" e.msg, closeEv]

/-- The full queue content of one run: every event wrapped `some`, then
the `None` sentinel, enqueued by the `finally` block right after the close
event. -/
def producerItems (ts : String) (st : OrchState) (p : String)
    (f : Option (Nat × PyExn)) : List (Option Event) :=
  (producerEvents ts st p f).map some ++ [none]

/-- The consumer loop of `stream_bioinformatics_task`: pop items in FIFO
order, stop the moment the sentinel (`none`) is observed, never yield the
sentinel itself.  Totality of this function is the model-level statement
that draining the stream terminates. -/
def consume : List (Option Event) → List Event
  | [] => []
  | none :: _ => []
  | some e :: rest => e :: consume rest

/-- The serialized event sequence `stream_bioinformatics_task` yields to
its caller. -/
def streamOutput (ts : String) (st : OrchState) (p : String)
    (f : Option (Nat × PyExn)) : List Event :=
  consume (producerItems ts st p f)

/-- The result of the Flask `run_task` view (`src/app.py` lines 22-27):
either the immediate 400 error response (no channel created, no thread
spawned, no events) or the streamed run. -/
inductive RunTaskResult where
  | errorResponse (body : String) (statusCode : Nat)
  | stream (items : List (Option Event))
deriving DecidableEq

/-- `run_task`: `request.args.get('task')` is `None` when the parameter is
missing; `if not user_task` rejects both `None` and the empty string
before `stream_bioinformatics_task` is ever called. -/
def run_task (ts : String) (st : OrchState) (f : Option (Nat × PyExn)) :
    Option String → RunTaskResult
  | none => RunTaskResult.errorResponse "Error: No task provided." 400
  | some t =>
      if t = "" then RunTaskResult.errorResponse "Error: No task provided." 400
      else RunTaskResult.stream (producerItems ts st t f)

/-- The queue items observable from a `run_task` result (an error response
carries none: the channel was never created). -/
def emittedItems : RunTaskResult → List (Option Event)
  | RunTaskResult.errorResponse _ _ => []
  | RunTaskResult.stream items => items

/-- Is this event a `Status` with status field `"error"`? -/
def isErrorStatus : Event → Bool
  | Event.status _ s _ => s == "error"
  | _ => false

/-- Does any string field of this event contain `pat` as a substring? -/
def evContainsStr (ev : Event) (pat : String) : Bool :=
  match ev with
  | Event.status a b c => containsStr a pat || containsStr b pat || containsStr c pat
  | Event.log c => containsStr c pat
  | Event.chat c => containsStr c pat
  | Event.report c => containsStr c pat
  | Event.close m => containsStr m pat

/-- The number of G/C characters in a sequence (the spec's GC-content
numerator `count('G') + count('C')`, on an upper-cased token). -/
def gcCount (s : String) : Nat :=
  s.toList.countP fun c => c == 'G' || c == 'C'

/-- The spec's GC-content formula `100 * (count('G')+count('C')) / length`
as an exact rational. -/
def gcPercentSpec (s : String) : ℚ :=
  100 * (gcCount s : ℚ) / (s.length : ℚ)

/-- The constructor tag of an event (its wire-format `type` field). -/
inductive EvTag where
  | statusT
  | logT
  | chatT
  | reportT
  | closeT
deriving DecidableEq

/-- Tag of an event. -/
def tagOf : Event → EvTag
  | Event.status _ _ _ => EvTag.statusT
  | Event.log _ => EvTag.logT
  | Event.chat _ => EvTag.chatT
  | Event.report _ => EvTag.reportT
  | Event.close _ => EvTag.closeT

/-- A concrete `traceback.format_exc()` text, used as counterexample
input. -/
def tbExample : String :=
  "Traceback (most recent call last):\n  File \x22main.py\x22, line 238, in run_simulation_thread\nZeroDivisionError: division by zero"

/-! Helper lemmas. -/

/-- `isErrorStatus` on a log event. -/
theorem isErrorStatus_log (c : String) : isErrorStatus (Event.log c) = false := rfl

/-- `isErrorStatus` on a chat event. -/
theorem isErrorStatus_chat (c : String) : isErrorStatus (Event.chat c) = false := rfl

/-- `isErrorStatus` on a report event. -/
theorem isErrorStatus_report (c : String) : isErrorStatus (Event.report c) = false := rfl

/-- `isErrorStatus` on a close event. -/
theorem isErrorStatus_close (c : String) : isErrorStatus (Event.close c) = false := rfl

/-- `isErrorStatus` on a status event. -/
theorem isErrorStatus_status (a b c : String) :
    isErrorStatus (Event.status a b c) = (b == "error") := rfl

/-- The consumer loop yields exactly the events preceding the sentinel. -/
theorem consume_map_some (l : List Event) : consume (l.map some ++ [none]) = l := by
  induction l with
  | nil => rfl
  | cons e re ih =>
      simp only [List.map_cons, List.cons_append, consume, List.append_eq]
      rw [ih]

/-- A successful engine run emits no error status at all. -/
theorem engineEvents_no_error (ts : String) (st : OrchState) (p : String) :
    (engineEvents ts st p).countP isErrorStatus = 0 := by
  have hctx : (ctxEvents ts st p).countP isErrorStatus = 0 := by
    unfold ctxEvents
    cases h : st.history.isEmpty <;>
      simp [h, List.countP_cons, isErrorStatus_log, isErrorStatus_status, logEvent]
  have hbr : ((dialogueBranch (classifyOf st p)).1.map fun am =>
      logEvent ts am.1 am.2).countP isErrorStatus = 0 := by
    refine List.countP_eq_zero.mpr ?_
    intro a ha
    obtain ⟨am, _, rfl⟩ := List.mem_map.mp ha
    simp [logEvent, isErrorStatus_log]
  unfold engineEvents engineFront
  simp [List.countP_append, hctx, hbr, List.countP_cons, isErrorStatus_log,
    isErrorStatus_chat, isErrorStatus_status, isErrorStatus_report, logEvent]

/-- The truncated event prefix cut off by an exception also contains no
error status. -/
theorem engineEvents_take_no_error (ts : String) (st : OrchState) (p : String) (k : Nat) :
    ((engineEvents ts st p).take k).countP isErrorStatus = 0 :=
  Nat.le_zero.mp (engineEvents_no_error ts st p ▸
    List.Sublist.countP_le isErrorStatus (List.take_sublist k (engineEvents ts st p)))

/-- The real event sequence of a failed run, written with the close event
split off. -/
theorem producerEvents_fail_eq (ts : String) (st : OrchState) (p : String)
    (k : Nat) (e : PyExn) :
    producerEvents ts st p (some (k, e)) =
      ((engineEvents ts st p).take k ++
        [logEvent ts "Orchestrator" (errorMessage e), Event.status "Error" "error" e.msg]) ++
      [closeEv] := by
  simp [producerEvents]

/-- Any run's real event sequence ends with the close event. -/
theorem producerEvents_getLast (ts : String) (st : OrchState) (p : String)
    (f : Option (Nat × PyExn)) :
    (producerEvents ts st p f).getLast? = some closeEv := by
  cases f with
  | none => exact List.getLast?_concat _
  | some ke =>
      obtain ⟨k, e⟩ := ke
      rw [producerEvents_fail_eq]
      exact List.getLast?_concat _

/-- Any run's queue content ends with the sentinel. -/
theorem producerItems_getLast (ts : String) (st : OrchState) (p : String)
    (f : Option (Nat × PyExn)) :
    (producerItems ts st p f).getLast? = some none := by
  unfold producerItems
  exact List.getLast?_concat _

/-! Claim theorems. -/

/-- Claim C1: for every task string, if an exception is raised at any point
of the engine's step execution (after any number `k` of emitted events,
with any exception text), the run still emits the Close event as the last
real event, exactly one `Status` event with status `"error"` occurs (hence
precedes that final Close), and the channel is closed (the sentinel is the
final queue item) on the failure path as well as on the success path. -/
theorem run_error_close_contract (ts : String) (st : OrchState) (p : String)
    (k : Nat) (e : PyExn) :
    (producerEvents ts st p (some (k, e))).getLast? = some closeEv ∧
    (producerEvents ts st p (some (k, e))).countP isErrorStatus = 1 ∧
    (producerItems ts st p (some (k, e))).getLast? = some none ∧
    (producerItems ts st p none).getLast? = some none := by
  refine ⟨producerEvents_getLast ts st p (some (k, e)), ?_,
    producerItems_getLast ts st p (some (k, e)), producerItems_getLast ts st p none⟩
  unfold producerEvents
  simp [List.countP_append, engineEvents_take_no_error, List.countP_cons,
    isErrorStatus_log, isErrorStatus_status, isErrorStatus_close, logEvent, closeEv]

/-- Claim C3: for every task string and every outcome (success or failure
at any point), draining the run's queue terminates with the consumer
yielding exactly the real events (`consume` is a total function, so the
drain terminates by construction); the sentinel is enqueued exactly once,
as the last item right after the Close event, the consumer never yields
the sentinel (its output equals the sentinel-free event list), and the
last event yielded to the caller is Close. -/
theorem sentinel_termination_protocol (ts : String) (st : OrchState) (p : String)
    (f : Option (Nat × PyExn)) :
    streamOutput ts st p f = producerEvents ts st p f ∧
    (producerItems ts st p f).countP Option.isNone = 1 ∧
    (producerItems ts st p f).getLast? = some none ∧
    (streamOutput ts st p f).getLast? = some closeEv := by
  have hmain : streamOutput ts st p f = producerEvents ts st p f :=
    consume_map_some (producerEvents ts st p f)
  refine ⟨hmain, ?_, producerItems_getLast ts st p f, ?_⟩
  · unfold producerItems
    simp [List.countP_append, List.countP_map, Function.comp_def, List.countP_cons]
  · rw [hmain]
    exact producerEvents_getLast ts st p f

/-- Claim C2 counterexample: on the concrete task `"x"`, the last four
real events of a successful run are, in order, Status, **ChatMessage,
Report**, Close — not the claimed Status, Report, ChatMessage, Close.
The claimed tag order (reversed: close, chat, report, status) does not
match the run, whose reversed tail is close, report, chat, status. -/
theorem completion_order_counterexample :
    ((streamOutput "[12:00:00]" initState "x" none).map tagOf).reverse.take 4 ≠
      [EvTag.closeT, EvTag.chatT, EvTag.reportT, EvTag.statusT] ∧
    ((streamOutput "[12:00:00]" initState "x" none).map tagOf).reverse.take 4 =
      [EvTag.closeT, EvTag.reportT, EvTag.chatT, EvTag.statusT] := by
  constructor
  · decide
  · decide

/-- Claim C2 amended: on normal completion the producer emits, in this
order, the final `Status{completed}`, then the closing ChatMessage, then
the Report, then the Close event (chat before report, unlike the claim's
report-then-chat order), and then the sentinel closes the channel. -/
theorem completion_order_amended (ts : String) (st : OrchState) (p : String) :
    producerEvents ts st p none =
      engineFront ts st p ++
      [Event.status "Dialogue Complete" "completed" "Initial analysis complete. Awaiting further input.",
       Event.chat (finalChatResponse p (classifyOf st p) (dialogueBranch (classifyOf st p)).2),
       Event.report (resultsContent p (classifyOf st p) (dialogueBranch (classifyOf st p)).2),
       closeEv] ∧
    (producerItems ts st p none).getLast? = some none := by
  refine ⟨?_, producerItems_getLast ts st p none⟩
  simp [producerEvents, engineEvents, List.append_assoc]

/-- Claim C5 counterexample: when the engine fails immediately with
exception text `"division by zero"` and the concrete traceback
`tbExample`, the emitted failure Log event contains the raw traceback
text verbatim — so it is not true that no event content contains the
stack trace. -/
theorem stack_trace_leak_counterexample :
    ((producerEvents "[12:00:00]" initState "x"
        (some (0, ⟨"division by zero", tbExample⟩))).any
      fun ev => evContainsStr ev tbExample) = true := by
  decide

/-- Claim C5 amended: on a producer-side failure the unique
`Status{error}` event carries exactly the short `str(e)` message (no
traceback appended to it), but the failure-describing Log event does
contain the full `traceback.format_exc()` text as a substring of its
content. -/
theorem error_events_content_amended (ts : String) (st : OrchState) (p : String)
    (k : Nat) (e : PyExn) :
    (producerEvents ts st p (some (k, e))).filter isErrorStatus =
      [Event.status "Error" "error" e.msg] ∧
    logEvent ts "Orchestrator" (errorMessage e) ∈ producerEvents ts st p (some (k, e)) ∧
    e.tb.toList <:+: (ts ++ " **" ++ "Orchestrator" ++ ":** " ++ errorMessage e).toList := by
  refine ⟨?_, ?_, ?_⟩
  · unfold producerEvents
    rw [List.filter_append]
    have h0 : ((engineEvents ts st p).take k).filter isErrorStatus = [] := by
      refine List.filter_eq_nil_iff.mpr ?_
      intro a ha
      have := List.countP_eq_zero.mp (engineEvents_take_no_error ts st p k) a ha
      simpa using this
    rw [h0]
    simp [List.filter_cons, isErrorStatus_log, isErrorStatus_status,
      isErrorStatus_close, logEvent, closeEv]
  · unfold producerEvents
    simp
  · refine ⟨(ts ++ " **" ++ "Orchestrator" ++ ":** " ++
      ("An error occurred during the simulation: " ++ e.msg ++ "\n")).toList, [], ?_⟩
    simp [errorMessage, String.toList, String.data_append, List.append_assoc]

/-- Claim C6 counterexample: on the same orchestrator object, a second
run observes the first run's conversation history.  Concretely, after a
run on `"Tell me about nitrogen fixation"` the history is non-empty, and
a subsequent run on `"And protein folding?"` starts with the
Contextualizing follow-up status instead of the Deconstruction status a
fresh run emits — conversation-history state does carry over between
runs. -/
theorem history_carryover_counterexample :
    (engineFinalState initState "Tell me about nitrogen fixation").history ≠ [] ∧
    (engineEvents "[12:00:00]"
        (engineFinalState initState "Tell me about nitrogen fixation")
        "And protein folding?").head? ≠
      (engineEvents "[12:00:00]" initState "And protein folding?").head? := by
  constructor
  · decide
  · decide

/-- Claim C6 amended: the EventChannel (queue) is created fresh per
invocation, but the RunContext is **not** run-local: `conversation_history`
lives on the orchestrator object and survives the run.  After any run from
the fresh initial state the history is non-empty, so a subsequent engine
run on the same orchestrator takes the follow-up path (its first event is
the Contextualizing status), whereas a run from the fresh initial state
emits the Deconstruction status first. -/
theorem history_persistence_amended (ts2 p p2 : String) :
    (engineFinalState initState p).history ≠ [] ∧
    (engineEvents ts2 (engineFinalState initState p) p2).head? =
      some (Event.status "Contextualizing" "processing"
        "Agents are contextualizing the follow-up query...") ∧
    (engineEvents ts2 initState p2).head? =
      some (Event.status "Deconstruction" "processing"
        "Agents are deconstructing the query...") := by
  have hne : (engineFinalState initState p).history ≠ [] := by
    unfold engineFinalState engineFinalHistory
    simp
  refine ⟨hne, ?_, ?_⟩
  · have hemp : (engineFinalState initState p).history.isEmpty = false := by
      cases h : (engineFinalState initState p).history.isEmpty
      · rfl
      · exact absurd (List.isEmpty_iff.mp h) hne
    unfold engineEvents engineFront ctxEvents
    rw [hemp]
    simp
  · unfold engineEvents engineFront ctxEvents
    simp [initState]

/-- Claim C7: branch selection is a pure function of the task text with
first-match-wins precedence.  Any task matching the PCR keyword
(`"pcr failing"` in the lower-cased task, which is how the code's
qPCR/PCR keyword test reads) selects the PCR/primer-design dialogue branch
even when the task also contains a DNA token; a task with a DNA token and
no PCR keyword selects the sequence-analysis branch (never the fallback).
Since `classify` is deterministic, two independent runs on the same
PCR-matching task both obtain the PCR branch. -/
theorem branch_selection_precedence (p q : String) (fu : Bool)
    (hp : containsStr (strToLower p) "pcr failing" = true)
    (hq1 : containsStr (strToLower q) "pcr failing" = false)
    (hq2 : (extractEntities q).isSome = true) :
    (classify p fu).centralTopic = "PCR troubleshooting" ∧
    (classify p fu).specialistRole = "PCR Troubleshooting Specialist" ∧
    (classify q fu).centralTopic = "DNA sequence analysis" ∧
    (classify q fu).specialistRole = "Sequence Analysis Expert" := by
  refine ⟨?_, ?_, ?_, ?_⟩ <;> simp [classify, hp, hq1, hq2]

/-- Witness for C7: a task containing both the PCR keyword and a DNA token
takes the PCR branch (keyword precedence), and the same task minus the
keyword takes the sequence-analysis branch. -/
theorem branch_selection_precedence_witness :
    (classify "Why is my qPCR failing on template ATGCGTACGTAGCTAGC?" false).centralTopic =
      "PCR troubleshooting" ∧
    (classify "Analyze ATGCGTACGTAGCTAGC" false).centralTopic = "DNA sequence analysis" :=
  ⟨(branch_selection_precedence "Why is my qPCR failing on template ATGCGTACGTAGCTAGC?"
      "Analyze ATGCGTACGTAGCTAGC" false (by decide) (by decide) (by decide)).1,
   (branch_selection_precedence "Why is my qPCR failing on template ATGCGTACGTAGCTAGC?"
      "Analyze ATGCGTACGTAGCTAGC" false (by decide) (by decide) (by decide)).2.2.1⟩

/-- Claim C8: the post-Log pacing delay is
`base_delay + k * len(message)` with `base_delay = 1.6 ∈ [1.5, 1.8]`
seconds and `k = 0.007 ∈ [0.005, 0.007]` seconds per character, and the
delay is strictly increasing in message length. -/
theorem log_pacing (m1 m2 : String) (h : m1.length < m2.length) :
    logDelay m1 = 8/5 + (7/1000) * (m1.length : ℚ) ∧
    ((3/2 : ℚ) ≤ 8/5 ∧ (8/5 : ℚ) ≤ 9/5) ∧
    ((1/200 : ℚ) ≤ 7/1000 ∧ (7/1000 : ℚ) ≤ 7/1000) ∧
    logDelay m1 < logDelay m2 := by
  refine ⟨by unfold logDelay; ring, ⟨by norm_num, by norm_num⟩,
    ⟨by norm_num, le_refl _⟩, ?_⟩
  unfold logDelay
  have hc : (m1.length : ℚ) < (m2.length : ℚ) := by exact_mod_cast h
  linarith

/-- Witness for C8: the delay after a two-character message is strictly
shorter than after a five-character message. -/
theorem log_pacing_witness :
    "hi".length < "hello".length ∧ logDelay "hi" < logDelay "hello" :=
  ⟨by decide, (log_pacing "hi" "hello" (by decide)).2.2.2⟩

/-- Claim C9: a request with a missing (`None`) or empty task string is
rejected with the client-visible 400 error response before any
EventChannel is created or producer thread spawned; no queue items (hence
no events) exist for such a request. -/
theorem empty_task_rejected (ts : String) (st : OrchState)
    (f : Option (Nat × PyExn)) (task : Option String)
    (h : task = none ∨ task = some "") :
    run_task ts st f task = RunTaskResult.errorResponse "Error: No task provided." 400 ∧
    emittedItems (run_task ts st f task) = [] := by
  rcases h with h | h <;> subst h <;> simp [run_task, emittedItems]

/-- Witness for C9: the empty task string is rejected. -/
theorem empty_task_rejected_witness :
    (some "" = none ∨ (some "" : Option String) = some "") ∧
    run_task "[12:00:00]" initState none (some "") =
      RunTaskResult.errorResponse "Error: No task provided." 400 :=
  ⟨Or.inr rfl,
   (empty_task_rejected "[12:00:00]" initState none (some "") (Or.inr rfl)).1⟩

/-- Claim C4 counterexample: on the task `"Analyze ATGCGTACGTAGCTAGC"`
the sequence-analysis branch is selected and the token is extracted, but
no event of the run reports any GC percentage: `"47.1"` (the value the
claim asserts) appears in no event, and neither does `"52.9"` — the value
the claim's own formula actually yields, since the token has 9 G/C bases
out of 17 (`100*9/17 = 52.94...`, not the claimed `8/17 → 47.1`). -/
theorem gc_percentage_counterexample :
    extractEntities "Analyze ATGCGTACGTAGCTAGC" = some "ATGCGTACGTAGCTAGC" ∧
    (classify "Analyze ATGCGTACGTAGCTAGC" false).centralTopic = "DNA sequence analysis" ∧
    gcCount "ATGCGTACGTAGCTAGC" = 9 ∧
    ("ATGCGTACGTAGCTAGC" : String).length = 17 ∧
    gcPercentSpec "ATGCGTACGTAGCTAGC" ≠ 471/10 ∧
    ((engineEvents "[12:00:00]" initState "Analyze ATGCGTACGTAGCTAGC").all
      fun ev => !(evContainsStr ev "47.1")) = true ∧
    ((engineEvents "[12:00:00]" initState "Analyze ATGCGTACGTAGCTAGC").all
      fun ev => !(evContainsStr ev "52.9")) = true := by
  refine ⟨by decide, by decide, by decide, by decide, ?_,
    by set_option maxRecDepth 100000 in decide,
    by set_option maxRecDepth 100000 in decide⟩
  have h9 : gcCount "ATGCGTACGTAGCTAGC" = 9 := by decide
  have h17 : ("ATGCGTACGTAGCTAGC" : String).length = 17 := by decide
  unfold gcPercentSpec
  rw [h9, h17]
  norm_num

/-- Claim C4 amended: the sequence-analysis branch performs no GC-content
computation.  For any task whose extracted DNA token is `s` (and which
does not match the PCR keyword), the branch's first execution step is the
GC step whose `details` field is the instruction string
`"Count G and C bases in <s> and divide by <len(s)>."` interpolating the
extracted token and its length; no computed percentage is reported. -/
theorem gc_step_is_instruction_amended (p s : String)
    (h1 : extractEntities p = some s)
    (h2 : containsStr (strToLower p) "pcr failing" = false) :
    (classify p false).centralTopic = "DNA sequence analysis" ∧
    (dialogueBranch (classify p false)).2.head? = some (seqStep1 s) ∧
    (seqStep1 s).details =
      "Count G and C bases in " ++ s ++ " and divide by " ++ toString s.length ++ "." := by
  have hcl : classify p false =
      ⟨"DNA sequence analysis", "structural/functional characterization",
       "bioinformatics", "Sequence Analysis Expert", some s⟩ := by
    simp [classify, h1, h2]
  refine ⟨by rw [hcl], ?_, rfl⟩
  rw [hcl]
  simp [dialogueBranch]

/-- Witness for the amended C4: the example task extracts the example
token and its GC step is the instruction string. -/
theorem gc_step_is_instruction_amended_witness :
    extractEntities "Analyze ATGCGTACGTAGCTAGC" = some "ATGCGTACGTAGCTAGC" ∧
    (dialogueBranch (classify "Analyze ATGCGTACGTAGCTAGC" false)).2.head? =
      some (seqStep1 "ATGCGTACGTAGCTAGC") :=
  ⟨by decide,
   (gc_step_is_instruction_amended "Analyze ATGCGTACGTAGCTAGC" "ATGCGTACGTAGCTAGC"
      (by decide) (by decide)).2.1⟩

/-- If the scan finds `pat` at index `i`, then `pat` occurs at `i` and at
no earlier index. -/
theorem firstIdx_some_spec (pat : List Char) (l : List Char) (i : Nat)
    (h : firstIdx pat l = some i) :
    isPrefixB pat (l.drop i) = true ∧ ∀ j, j < i → isPrefixB pat (l.drop j) = false := by
  induction l generalizing i with
  | nil =>
      simp only [firstIdx] at h
      split at h
      · next hp =>
          injection h with h'
          subst h'
          exact ⟨hp, fun j hj => absurd hj (Nat.not_lt_zero j)⟩
      · exact Option.noConfusion h
  | cons c cs ih =>
      simp only [firstIdx] at h
      split at h
      · next hp =>
          injection h with h'
          subst h'
          exact ⟨hp, fun j hj => absurd hj (Nat.not_lt_zero j)⟩
      · next hp =>
          cases hfi : firstIdx pat cs with
          | none => rw [hfi] at h; exact Option.noConfusion h
          | some i' =>
              rw [hfi] at h
              simp only [Option.map_some'] at h
              injection h with h'
              obtain ⟨hocc, hmin⟩ := ih i' hfi
              subst h'
              refine ⟨by simpa using hocc, ?_⟩
              intro j hj
              cases j with
              | zero =>
                  simp only [List.drop_zero]
                  exact Bool.eq_false_iff.mpr fun hc => hp (by simpa using hc)
              | succ j' =>
                  simpa using hmin j' (Nat.lt_of_succ_lt_succ hj)

/-- If the scan finds no occurrence of `pat`, then `pat` occurs at no
index at all. -/
theorem firstIdx_none_spec (pat : List Char) (l : List Char)
    (h : firstIdx pat l = none) :
    ∀ j, isPrefixB pat (l.drop j) = false := by
  induction l with
  | nil =>
      intro j
      simp only [firstIdx] at h
      split at h
      · exact Option.noConfusion h
      · next hp =>
          simp only [List.drop_nil]
          exact Bool.eq_false_iff.mpr fun hc => hp (by simpa using hc)
  | cons c cs ih =>
      intro j
      simp only [firstIdx] at h
      split at h
      · exact Option.noConfusion h
      · next hp =>
          cases j with
          | zero =>
              simp only [List.drop_zero]
              exact Bool.eq_false_iff.mpr fun hc => hp (by simpa using hc)
          | succ j' =>
              have hn : firstIdx pat cs = none := by
                cases hfi : firstIdx pat cs with
                | none => rfl
                | some i' => rw [hfi] at h; exact Option.noConfusion h
              simpa using ih hn j'

/-- A nonempty pattern cannot occur at an index past the end of the
list. -/
theorem occursAtB_false_of_ge (s : String) (j : Nat)
    (hlen : s.toList.length ≤ j) : occursAtB s "ATG" j = false := by
  unfold occursAtB
  rw [List.drop_eq_nil_of_le hlen]
  rfl

/-- Claim C10: in the coding-element step, the reported ATG position is
`sequence.find("ATG") + 1`: the `details` field interpolates that value;
when `"ATG"` first occurs at zero-based index `i` the reported value is
`i + 1`; when `"ATG"` does not occur in the sequence the reported value
is `0` (Python's `find` returns `-1`, never raising); and the reported
value is always a well-defined non-negative integer (the step never
fails). -/
theorem coding_step_atg_position (s : String) :
    (codingStep1 s).details =
      "Analyze the " ++ toString s.length ++ "-nt sequence around the ATG at position " ++
        toString (pyFind s "ATG" + 1) ++ " for known ribosomal binding motifs." ∧
    (∀ i, occursAtB s "ATG" i = true → (∀ j, j < i → occursAtB s "ATG" j = false) →
      pyFind s "ATG" + 1 = (i : Int) + 1) ∧
    ((∀ j, j < s.toList.length → occursAtB s "ATG" j = false) →
      pyFind s "ATG" + 1 = 0) ∧
    0 ≤ pyFind s "ATG" + 1 := by
  refine ⟨rfl, ?_, ?_, ?_⟩
  · intro i hi hmin
    unfold occursAtB at hi hmin
    cases hfi : firstIdx "ATG".toList s.toList with
    | none =>
        exact Bool.noConfusion (hi.symm.trans (firstIdx_none_spec _ _ hfi i))
    | some i' =>
        obtain ⟨hocc, hmin'⟩ := firstIdx_some_spec _ _ i' hfi
        have hii : i = i' := by
          rcases Nat.lt_trichotomy i i' with hlt | heq | hgt
          · exact Bool.noConfusion (hi.symm.trans (hmin' i hlt))
          · exact heq
          · exact Bool.noConfusion (hocc.symm.trans (hmin i' hgt))
        subst hii
        unfold pyFind
        rw [hfi]
  · intro hall
    have hn : firstIdx "ATG".toList s.toList = none := by
      cases hfi : firstIdx "ATG".toList s.toList with
      | none => rfl
      | some i' =>
          obtain ⟨hocc, _⟩ := firstIdx_some_spec _ _ i' hfi
          by_cases hb : i' < s.toList.length
          · have hf := hall i' hb
            unfold occursAtB at hf
            exact Bool.noConfusion (hocc.symm.trans hf)
          · have hf : occursAtB s "ATG" i' = false :=
              occursAtB_false_of_ge s i' (Nat.le_of_not_lt hb)
            unfold occursAtB at hf
            exact Bool.noConfusion (hocc.symm.trans hf)
    unfold pyFind
    rw [hn]
    decide
  · unfold pyFind
    cases hfi : firstIdx "ATG".toList s.toList with
    | none => decide
    | some i' =>
        show (0 : Int) ≤ (i' : Int) + 1
        omega

/-- Witness for C10: in `"TTATGC"` the first `"ATG"` occurrence is at
zero-based index 2 and the reported position is 3; `"TTTT"` has no
occurrence and reports 0. -/
theorem coding_step_atg_position_witness :
    occursAtB "TTATGC" "ATG" 2 = true ∧
    pyFind "TTATGC" "ATG" + 1 = (2 : Int) + 1 ∧
    pyFind "TTTT" "ATG" + 1 = 0 :=
  ⟨by decide,
   (coding_step_atg_position "TTATGC").2.1 2 (by decide) (by decide),
   (coding_step_atg_position "TTTT").2.2.1 (by decide)⟩

end BioOrch
